import Mathlib

/-!
Shallow embedding of the HyperScan SPCE3200 CPU core (src/hyperscan/cpu/cpu_part1.js,
src/hyperscan/cpu/cpu_part3.js, src/unnamed/part_002) and of the interrupt
controller (src/unnamed/part_001), with theorems settling the frozen claims.

Modelling conventions:
* JavaScript 32-bit values are `Nat` kept below 2^32; the `>>> 0` coercion is
  `u32`/`u32I`; JS signed (int32) views are `Int` via `toInt32`.  JS bitwise
  operators on u32-valued operands agree bit-for-bit with Nat `&&&`, `|||`,
  `^^^`, `<<<`, `>>>` after a final `% 2^32`, which is inserted exactly where
  the JS engine reduces to 32 bits (store into a `Uint32Array`, `>>> 0`, or a
  shift that can overflow 32 bits).
* The memory-interface unit (MIU) is an environment the CPU calls through; it
  is abstracted as a record of pure operations over an abstract memory state
  `sigma`.  A read returning `none` / a write returning `none` models a host
  JS exception thrown by the interface (caught at the `step()` boundary).
* Thrown-error message strings are modelled as numeric codes in `lastError`
  (0 = the "MIU desconectado ou nao inicializado" message, 1 = the message of
  a caught host exception); no claim depends on the message text.
* Console logging is pure I/O and is dropped.  The optional breakpoint
  manager (`setupBreakpointSystem`) is never attached in the modelled
  configuration, matching the default `undefined` of `this.breakpointManager`,
  so the breakpoint check in `step()` is a no-op and is omitted.
-/

set_option maxRecDepth 100000

namespace HS

/-- 2^32, the JS `>>> 0` modulus. -/
def U32M : Nat := 4294967296

/-- JS `x >>> 0` on a non-negative number. -/
def u32 (n : Nat) : Nat := n % U32M

/-- JS `x >>> 0` on a possibly negative (int) number (modulus 2^32). -/
def u32I (i : Int) : Nat := (i % 4294967296).toNat

/-- JS `x | 0`: reinterpret the low 32 bits as a signed int32. -/
def toInt32 (n : Nat) : Int :=
  let v := n % U32M
  if v < 2147483648 then (v : Int) else (v : Int) - (U32M : Int)

/-- Memory-interface operations (the `miu` object the CPU calls through),
abstracted over a memory-state type.  `none` models a thrown JS exception. -/
structure MiuOps (σ : Type) where
  size : Nat
  readU8 : σ → Nat → Option Nat
  readU16 : σ → Nat → Option Nat
  readU32 : σ → Nat → Option Nat
  writeU8 : σ → Nat → Nat → Option σ
  writeU16 : σ → Nat → Nat → Option σ
  writeU32 : σ → Nat → Nat → Option σ

/-- The CPU state of `class CPU` (cpu_part1.js `reset()`, extended by
part_002's `initializeCPU` with `initFlag` (source: `initialized`),
`fault_count` and `lastError` (source: `last_error`)), together with the
attached memory interface and its abstract memory state. -/
structure Machine (σ : Type) where
  r : Fin 32 → Nat
  cr : Fin 32 → Nat
  sr : Fin 32 → Nat
  CEL : Nat
  CEH : Nat
  pc : Nat
  N : Nat
  Z : Nat
  C : Nat
  V : Nat
  T : Nat
  cycles : Nat
  instructions : Nat
  halted : Bool
  initFlag : Bool
  fault_count : Nat
  lastError : Option Nat
  miu : Option (MiuOps σ)
  mem : σ

variable {σ : Type}

/-- `CPU.getRegister(idx)`. -/
def getRegister (m : Machine σ) (idx : Nat) : Nat :=
  if h : idx < 32 then m.r ⟨idx, h⟩ else 0

/-- `CPU.setRegister(idx, value)`: r0 is left untouched (write boundary). -/
def setRegister (m : Machine σ) (idx value : Nat) : Machine σ :=
  if h : 0 < idx ∧ idx < 32 then
    { m with r := Function.update m.r ⟨idx, h.2⟩ (u32 value) }
  else m

/-- Direct `this.r[idx] = value` on the `Uint32Array` (bypasses
`setRegister`; used by the RIX post-increment and the compressed
push/pop).  An out-of-range index is discarded, as on a `Uint32Array`. -/
def setRdirect (m : Machine σ) (idx value : Nat) : Machine σ :=
  if h : idx < 32 then
    { m with r := Function.update m.r ⟨idx, h⟩ (u32 value) }
  else m

/-- Direct `this.r[idx]` read; every call site has `idx < 32` by masking. -/
def rdRaw (m : Machine σ) (idx : Nat) : Nat :=
  if h : idx < 32 then m.r ⟨idx, h⟩ else 0

/-- Direct `this.sr[idx]` read. -/
def srRaw (m : Machine σ) (idx : Nat) : Nat :=
  if h : idx < 32 then m.sr ⟨idx, h⟩ else 0

/-- Direct `this.sr[idx] = value` store. -/
def setSrRaw (m : Machine σ) (idx value : Nat) : Machine σ :=
  if h : idx < 32 then
    { m with sr := Function.update m.sr ⟨idx, h⟩ (u32 value) }
  else m

/-- `CPU.signExtend(x, b)` (cpu_part1.js, the corrected version). -/
def signExtend (x b : Nat) : Nat :=
  if 32 ≤ b then x % U32M
  else
    let xm := x % 2 ^ b
    if 2 ^ (b - 1) ≤ xm then xm + (U32M - 2 ^ b) else xm

/-- `CPU.updateBasicFlags(res)`. -/
def updateBasicFlags (m : Machine σ) (res : Nat) : Machine σ :=
  let res := u32 res
  { m with N := (res >>> 31) &&& 1, Z := if res = 0 then 1 else 0 }

/-- `CPU.packSR0()`. -/
def packSR0 (m : Machine σ) : Machine σ :=
  let v := ((m.N &&& 1) <<< 31) ||| ((m.Z &&& 1) <<< 30) ||| ((m.C &&& 1) <<< 29) |||
           ((m.V &&& 1) <<< 28) ||| (m.T &&& 1)
  { m with sr := Function.update m.sr 0 v }

/-- `CPU.unpackSR0()`. -/
def unpackSR0 (m : Machine σ) : Machine σ :=
  let v := u32 (m.sr 0)
  { m with N := (v >>> 31) &&& 1, Z := (v >>> 30) &&& 1, C := (v >>> 29) &&& 1,
           V := (v >>> 28) &&& 1, T := v &&& 1 }

/-- `CPU.add(a, b, updateFlags)`. -/
def add (m : Machine σ) (a b : Nat) (upd : Bool) : Nat × Machine σ :=
  let a := u32 a
  let b := u32 b
  let res := u32 (a + b)
  if upd then
    let m := updateBasicFlags m res
    let m := { m with C := if 4294967295 - a < b then 1 else 0 }
    let m := { m with V := ((((a ^^^ b) ^^^ 4294967295) &&& (a ^^^ res)) >>> 31) &&& 1 }
    (res, m)
  else (res, m)

/-- `CPU.addc(a, b, updateFlags)`. -/
def addc (m : Machine σ) (a b : Nat) (upd : Bool) : Nat × Machine σ :=
  let a := u32 a
  let b := u32 b
  let res := u32 (a + b + m.C)
  if upd then
    let m' := updateBasicFlags m res
    let m' := { m' with C := if 4294967295 - a < b + m.C then 1 else 0 }
    let m' := { m' with V := ((((a ^^^ b) ^^^ 4294967295) &&& (a ^^^ res)) >>> 31) &&& 1 }
    (res, m')
  else (res, m)

/-- `CPU.sub(a, b, updateFlags)`. -/
def sub (m : Machine σ) (a b : Nat) (upd : Bool) : Nat × Machine σ :=
  let a := u32 a
  let b := u32 b
  let res := u32I ((a : Int) - (b : Int))
  if upd then
    let m := updateBasicFlags m res
    let m := { m with C := if b ≤ a then 1 else 0 }
    let m := { m with V := (((a ^^^ b) &&& ((res ^^^ b) ^^^ 4294967295)) >>> 31) &&& 1 }
    (res, m)
  else (res, m)

/-- `CPU.subc(a, b, updateFlags)`. -/
def subc (m : Machine σ) (a b : Nat) (upd : Bool) : Nat × Machine σ :=
  let a := u32 a
  let b := u32 b
  let borrow := if m.C = 0 then 1 else 0
  let res := u32I ((a : Int) - (b : Int) - borrow)
  if upd then
    let m' := updateBasicFlags m res
    let m' := { m' with C := if b + borrow ≤ a then 1 else 0 }
    let m' := { m' with V := (((a ^^^ b) &&& ((res ^^^ b) ^^^ 4294967295)) >>> 31) &&& 1 }
    (res, m')
  else (res, m)

/-- `CPU.neg(a, updateFlags)`. -/
def neg (m : Machine σ) (a : Nat) (upd : Bool) : Nat × Machine σ :=
  let a := u32 a
  let res := u32I (0 - (a : Int))
  if upd then
    let m := updateBasicFlags m res
    let m := { m with C := if a = 0 then 1 else 0 }
    let m := { m with V := if a = 2147483648 then 1 else 0 }
    (res, m)
  else (res, m)

/-- The four `CPU.bitOp` operation selectors. -/
inductive BitOpKind | opAnd | opOr | opXor | opNot

/-- `CPU.bitOp(a, b, type, updateFlags)`. -/
def bitOp (m : Machine σ) (a b : Nat) (k : BitOpKind) (upd : Bool) : Nat × Machine σ :=
  let res := match k with
    | .opAnd => u32 (a &&& b)
    | .opOr => u32 (a ||| b)
    | .opXor => u32 (a ^^^ b)
    | .opNot => u32I (Int.xor (toInt32 a) (-1))
  if upd then (res, updateBasicFlags m res) else (res, m)

/-- `CPU.sll(a, sa, updateFlags)`. -/
def sll (m : Machine σ) (a sa : Nat) (upd : Bool) : Nat × Machine σ :=
  let a := u32 a
  let sa := sa &&& 0x1F
  let res := u32 (a <<< sa)
  if upd then
    let m := updateBasicFlags m res
    let m := if 0 < sa then { m with C := (a >>> (32 - sa)) &&& 1 } else m
    (res, m)
  else (res, m)

/-- `CPU.srl(a, sa, updateFlags)`. -/
def srl (m : Machine σ) (a sa : Nat) (upd : Bool) : Nat × Machine σ :=
  let a := u32 a
  let sa := sa &&& 0x1F
  let res := a >>> sa
  if upd then
    let m := updateBasicFlags m res
    let m := if 0 < sa then { m with C := (a >>> (sa - 1)) &&& 1 } else m
    (res, m)
  else (res, m)

/-- `CPU.sra(a, sa, updateFlags)`: arithmetic shift right is floor division
of the int32 view by `2^sa`. -/
def sra (m : Machine σ) (a sa : Nat) (upd : Bool) : Nat × Machine σ :=
  let a := u32 a
  let sa := sa &&& 0x1F
  let res := u32I ((toInt32 a).fdiv (2 ^ sa))
  if upd then
    let m := updateBasicFlags m res
    let m := if 0 < sa then { m with C := (a >>> (sa - 1)) &&& 1 } else m
    (res, m)
  else (res, m)

/-- `CPU.ror(a, sa, updateFlags)`. -/
def ror (m : Machine σ) (a sa : Nat) (upd : Bool) : Nat × Machine σ :=
  let a := u32 a
  let sa := sa &&& 0x1F
  if sa = 0 then (a, m)
  else
    let res := (a >>> sa) ||| u32 (a <<< (32 - sa))
    if upd then
      let m := updateBasicFlags m res
      let m := { m with C := (a >>> (sa - 1)) &&& 1 }
      (res, m)
    else (res, m)

/-- `CPU.rol(a, sa, updateFlags)`. -/
def rol (m : Machine σ) (a sa : Nat) (upd : Bool) : Nat × Machine σ :=
  let a := u32 a
  let sa := sa &&& 0x1F
  if sa = 0 then (a, m)
  else
    let res := u32 (a <<< sa) ||| (a >>> (32 - sa))
    if upd then
      let m := updateBasicFlags m res
      let m := { m with C := (a >>> (32 - sa)) &&& 1 }
      (res, m)
    else (res, m)

/-- `CPU.rorc(a, updateFlags)`. -/
def rorc (m : Machine σ) (a : Nat) (upd : Bool) : Nat × Machine σ :=
  let a := u32 a
  let res := (a >>> 1) ||| u32 ((m.C &&& 1) <<< 31)
  if upd then
    let m := updateBasicFlags m res
    let m := { m with C := a &&& 1 }
    (res, m)
  else (res, m)

/-- `CPU.rolc(a, updateFlags)`. -/
def rolc (m : Machine σ) (a : Nat) (upd : Bool) : Nat × Machine σ :=
  let a := u32 a
  let res := u32 (a <<< 1) ||| (m.C &&& 1)
  if upd then
    let m := updateBasicFlags m res
    let m := { m with C := (a >>> 31) &&& 1 }
    (res, m)
  else (res, m)

/-- `CPU.extsb(a, updateFlags)`. -/
def extsb (m : Machine σ) (a : Nat) (upd : Bool) : Nat × Machine σ :=
  let low := u32 a &&& 0xFF
  let res := if low &&& 0x80 ≠ 0 then low ||| 0xFFFFFF00 else low
  if upd then (res, updateBasicFlags m res) else (res, m)

/-- `CPU.extsh(a, updateFlags)`. -/
def extsh (m : Machine σ) (a : Nat) (upd : Bool) : Nat × Machine σ :=
  let low := u32 a &&& 0xFFFF
  let res := if low &&& 0x8000 ≠ 0 then low ||| 0xFFFF0000 else low
  if upd then (res, updateBasicFlags m res) else (res, m)

/-- `CPU.extzb(a, updateFlags)`. -/
def extzb (m : Machine σ) (a : Nat) (upd : Bool) : Nat × Machine σ :=
  let res := a &&& 0xFF
  if upd then (res, updateBasicFlags m res) else (res, m)

/-- `CPU.extzh(a, updateFlags)`. -/
def extzh (m : Machine σ) (a : Nat) (upd : Bool) : Nat × Machine σ :=
  let res := a &&& 0xFFFF
  if upd then (res, updateBasicFlags m res) else (res, m)

/-- `CPU.bitclr(a, bitIdx, updateFlags)`. -/
def bitclr (m : Machine σ) (a bitIdx : Nat) (upd : Bool) : Nat × Machine σ :=
  let bitIdx := bitIdx &&& 0x1F
  let res := u32 a &&& (4294967295 ^^^ (1 <<< bitIdx))
  if upd then (res, updateBasicFlags m res) else (res, m)

/-- `CPU.bitset(a, bitIdx, updateFlags)`. -/
def bitset (m : Machine σ) (a bitIdx : Nat) (upd : Bool) : Nat × Machine σ :=
  let bitIdx := bitIdx &&& 0x1F
  let res := u32 a ||| (1 <<< bitIdx)
  if upd then (res, updateBasicFlags m res) else (res, m)

/-- `CPU.bittst(a, bitIdx)`: sets both `T` and `Z`. -/
def bittst (m : Machine σ) (a bitIdx : Nat) : Machine σ :=
  let bitIdx := bitIdx &&& 0x1F
  let t := if a &&& (1 <<< bitIdx) ≠ 0 then 1 else 0
  { m with T := t, Z := if t = 1 then 0 else 1 }

/-- `CPU.bittgl(a, bitIdx, updateFlags)`. -/
def bittgl (m : Machine σ) (a bitIdx : Nat) (upd : Bool) : Nat × Machine σ :=
  let bitIdx := bitIdx &&& 0x1F
  let res := u32 (a ^^^ (1 <<< bitIdx))
  if upd then (res, updateBasicFlags m res) else (res, m)

/-- `CPU.conditional(cond)`: the 16-entry condition truth table. -/
def conditional (m : Machine σ) (cond : Nat) : Bool :=
  match cond &&& 0x0F with
  | 0x00 => m.C = 1
  | 0x01 => m.C = 0
  | 0x02 => m.C = 1 ∧ m.Z = 0
  | 0x03 => m.C = 0 ∨ m.Z = 1
  | 0x04 => m.Z = 1
  | 0x05 => m.Z = 0
  | 0x06 => m.N = m.V ∧ m.Z = 0
  | 0x07 => m.N ≠ m.V ∨ m.Z = 1
  | 0x08 => m.N = m.V
  | 0x09 => m.N ≠ m.V
  | 0x0A => m.N = 1
  | 0x0B => m.N = 0
  | 0x0C => m.V = 1
  | 0x0D => m.V = 0
  | 0x0E => m.T = 1
  | 0x0F => True
  | _ => False

/-- `CPU.execMul(a, b)`: signed 64-bit product into CEL/CEH. -/
def execMul (m : Machine σ) (a b : Nat) : Machine σ :=
  let p : Int := toInt32 a * toInt32 b
  { m with CEL := (p.emod (U32M : Int)).toNat,
           CEH := ((p.fdiv (U32M : Int)).emod (U32M : Int)).toNat }

/-- `CPU.execMulu(a, b)`: unsigned 64-bit product into CEL/CEH. -/
def execMulu (m : Machine σ) (a b : Nat) : Machine σ :=
  let p := u32 a * u32 b
  { m with CEL := p % U32M, CEH := (p / U32M) % U32M }

/-- `CPU.execDiv(a, b)`: signed truncated quotient/remainder; division by
zero is a silent no-op (guarded by `sB !== 0`). -/
def execDiv (m : Machine σ) (a b : Nat) : Machine σ :=
  let sA := toInt32 a
  let sB := toInt32 b
  if sB ≠ 0 then
    { m with CEL := ((sA.tdiv sB).emod (U32M : Int)).toNat,
             CEH := ((sA.tmod sB).emod (U32M : Int)).toNat }
  else m

/-- `CPU.execDivu(a, b)`: unsigned quotient/remainder; division by zero is
a silent no-op (guarded by `uB !== 0`). -/
def execDivu (m : Machine σ) (a b : Nat) : Machine σ :=
  let uA := u32 a
  let uB := u32 b
  if uB ≠ 0 then { m with CEL := uA / uB, CEH := uA % uB }
  else m

/-- `CPU.moveFromCE(rD, rB)`. -/
def moveFromCE (m : Machine σ) (rD rB : Nat) : Machine σ :=
  match rB &&& 0x03 with
  | 1 => setRegister m rD m.CEL
  | 2 => setRegister m rD m.CEH
  | 3 =>
    let m := setRegister m rD m.CEL
    if rD < 31 then setRegister m (rD + 1) m.CEH else m
  | _ => m

/-- `CPU.moveToCE(rD, rB)`. -/
def moveToCE (m : Machine σ) (rD rB : Nat) : Machine σ :=
  match rB &&& 0x03 with
  | 1 => { m with CEL := rdRaw m rD }
  | 2 => { m with CEH := rdRaw m rD }
  | 3 =>
    let m := { m with CEL := rdRaw m rD }
    if rD < 31 then { m with CEH := rdRaw m (rD + 1) } else m
  | _ => m

/-- `CPU.prototype.exception(cause)` (part_002). -/
def exception (m : Machine σ) (cause : Nat) : Machine σ :=
  let m := packSR0 m
  let m := { m with cr := Function.update m.cr 1 (m.sr 0) }
  let c2 := (m.cr 2 &&& 0xFF03FFFF) ||| ((cause &&& 0x3F) <<< 18)
  let m := { m with cr := Function.update m.cr 2 c2 }
  let m := { m with cr := Function.update m.cr 5 m.pc }
  let m := { m with cr := Function.update m.cr 0 (m.cr 0 &&& 0xFFFFFFFE) }
  { m with pc := u32 (m.cr 3 + cause * 4) }

/-- `CPU.prototype.rte()` (part_002). -/
def rte (m : Machine σ) : Machine σ :=
  let m := { m with sr := Function.update m.sr 0 (m.cr 1) }
  let m := unpackSR0 m
  { m with pc := m.cr 5 }

/-- An executor result: the machine after all effects performed so far and
`some delta` on normal return, or `none` when a host exception was thrown
(to be caught at the `step()` boundary). -/
abbrev ExecRes (σ : Type) := Machine σ × Option Nat

/-- `CPU.prototype.execSpForm(insn)` (part_002). -/
def execSpForm (m : Machine σ) (insn : Nat) : ExecRes σ :=
  let rD := (insn >>> 22) &&& 0x1F
  let rA := (insn >>> 17) &&& 0x1F
  let rB := (insn >>> 12) &&& 0x1F
  let func6 := (insn >>> 1) &&& 0x3F
  let CU := insn &&& 1
  match func6 with
  | 0x00 => (m, some 4)
  | 0x01 => (exception m 0x01, some 4)
  | 0x02 => (if conditional m rB then exception m 0x02 else m, some 4)
  | 0x03 => (exception m 0x03, some 4)
  | 0x04 =>
    if conditional m rB then
      let m := if CU = 1 then setRegister m 3 (u32 (m.pc + 4)) else m
      ({ m with pc := rdRaw m rA }, some 0)
    else (m, some 4)
  | 0x05 => (m, some 4)
  | 0x06 =>
    match m.miu with
    | some ops =>
      match ops.readU32 m.mem (rdRaw m rA) with
      | some v => (setRegister m rD v, some 4)
      | none => (m, none)
    | none => (m, some 4)
  | 0x07 =>
    match m.miu with
    | some ops =>
      match ops.writeU32 m.mem (rdRaw m rA) (rdRaw m rD) with
      | some s => ({ m with mem := s }, some 4)
      | none => (m, none)
    | none => (m, some 4)
  | 0x08 =>
    let p := add m (rdRaw m rA) (rdRaw m rB) (CU = 1)
    (setRegister p.2 rD p.1, some 4)
  | 0x09 =>
    let p := addc m (rdRaw m rA) (rdRaw m rB) (CU = 1)
    (setRegister p.2 rD p.1, some 4)
  | 0x0A =>
    let p := sub m (rdRaw m rA) (rdRaw m rB) (CU = 1)
    (setRegister p.2 rD p.1, some 4)
  | 0x0B =>
    let p := subc m (rdRaw m rA) (rdRaw m rB) (CU = 1)
    (setRegister p.2 rD p.1, some 4)
  | 0x0C => ((sub m (rdRaw m rA) (rdRaw m rB) true).2, some 4)
  | 0x0D => ((sub m (rdRaw m rA) 0 true).2, some 4)
  | 0x0F =>
    let p := neg m (rdRaw m rA) (CU = 1)
    (setRegister p.2 rD p.1, some 4)
  | 0x10 =>
    let p := bitOp m (rdRaw m rA) (rdRaw m rB) .opAnd (CU = 1)
    (setRegister p.2 rD p.1, some 4)
  | 0x11 =>
    let p := bitOp m (rdRaw m rA) (rdRaw m rB) .opOr (CU = 1)
    (setRegister p.2 rD p.1, some 4)
  | 0x12 =>
    let p := bitOp m (rdRaw m rA) 0 .opNot (CU = 1)
    (setRegister p.2 rD p.1, some 4)
  | 0x13 =>
    let p := bitOp m (rdRaw m rA) (rdRaw m rB) .opXor (CU = 1)
    (setRegister p.2 rD p.1, some 4)
  | 0x14 =>
    let p := bitclr m (rdRaw m rA) rB (CU = 1)
    (setRegister p.2 rD p.1, some 4)
  | 0x15 =>
    let p := bitset m (rdRaw m rA) rB (CU = 1)
    (setRegister p.2 rD p.1, some 4)
  | 0x16 => (bittst m (rdRaw m rA) rB, some 4)
  | 0x17 =>
    let p := bittgl m (rdRaw m rA) rB (CU = 1)
    (setRegister p.2 rD p.1, some 4)
  | 0x18 =>
    let p := sll m (rdRaw m rA) (rdRaw m rB) (CU = 1)
    (setRegister p.2 rD p.1, some 4)
  | 0x1A =>
    let p := srl m (rdRaw m rA) (rdRaw m rB) (CU = 1)
    (setRegister p.2 rD p.1, some 4)
  | 0x1B =>
    let p := sra m (rdRaw m rA) (rdRaw m rB) (CU = 1)
    (setRegister p.2 rD p.1, some 4)
  | 0x1C =>
    let p := ror m (rdRaw m rA) (rdRaw m rB) (CU = 1)
    (setRegister p.2 rD p.1, some 4)
  | 0x1D =>
    let p := rorc m (rdRaw m rA) (CU = 1)
    (setRegister p.2 rD p.1, some 4)
  | 0x1E =>
    let p := rol m (rdRaw m rA) (rdRaw m rB) (CU = 1)
    (setRegister p.2 rD p.1, some 4)
  | 0x1F =>
    let p := rolc m (rdRaw m rA) (CU = 1)
    (setRegister p.2 rD p.1, some 4)
  | 0x20 => (execMul m (rdRaw m rA) (rdRaw m rB), some 4)
  | 0x21 => (execMulu m (rdRaw m rA) (rdRaw m rB), some 4)
  | 0x22 => (execDiv m (rdRaw m rA) (rdRaw m rB), some 4)
  | 0x23 => (execDivu m (rdRaw m rA) (rdRaw m rB), some 4)
  | 0x24 => (moveFromCE m rD rB, some 4)
  | 0x25 => (moveToCE m rD rB, some 4)
  | 0x28 => (setRegister m rD (srRaw m rB), some 4)
  | 0x29 =>
    let m := setSrRaw m rB (rdRaw m rA)
    (if rB = 0 then unpackSR0 m else m, some 4)
  | 0x2A => ({ m with T := if conditional m rB then 1 else 0 }, some 4)
  | 0x2B => (if conditional m rB then setRegister m rD (rdRaw m rA) else m, some 4)
  | 0x2C =>
    let p := extsb m (rdRaw m rA) (CU = 1)
    (setRegister p.2 rD p.1, some 4)
  | 0x2D =>
    let p := extsh m (rdRaw m rA) (CU = 1)
    (setRegister p.2 rD p.1, some 4)
  | 0x2E =>
    let p := extzb m (rdRaw m rA) (CU = 1)
    (setRegister p.2 rD p.1, some 4)
  | 0x2F =>
    let p := extzh m (rdRaw m rA) (CU = 1)
    (setRegister p.2 rD p.1, some 4)
  | 0x30 =>
    match m.miu with
    | some ops =>
      match ops.readU8 m.mem (rdRaw m rA) with
      | some v => (setRegister m rD v, some 4)
      | none => (m, none)
    | none => (m, some 4)
  | 0x31 =>
    match m.miu with
    | some ops =>
      match ops.readU32 m.mem (rdRaw m rA) with
      | some v => (setRegister m rD v, some 4)
      | none => (m, none)
    | none => (m, some 4)
  | 0x34 =>
    match m.miu with
    | some ops =>
      match ops.writeU8 m.mem (rdRaw m rA) (rdRaw m rD &&& 0xFF) with
      | some s => ({ m with mem := s }, some 4)
      | none => (m, none)
    | none => (m, some 4)
  | 0x35 =>
    match m.miu with
    | some ops =>
      match ops.writeU32 m.mem (rdRaw m rA) (rdRaw m rD) with
      | some s => ({ m with mem := s }, some 4)
      | none => (m, none)
    | none => (m, some 4)
  | 0x38 =>
    let p := sll m (rdRaw m rA) rB (CU = 1)
    (setRegister p.2 rD p.1, some 4)
  | 0x3A =>
    let p := srl m (rdRaw m rA) rB (CU = 1)
    (setRegister p.2 rD p.1, some 4)
  | 0x3B =>
    let p := sra m (rdRaw m rA) rB (CU = 1)
    (setRegister p.2 rD p.1, some 4)
  | 0x3C =>
    let p := ror m (rdRaw m rA) rB (CU = 1)
    (setRegister p.2 rD p.1, some 4)
  | 0x3D =>
    let p := rorc m (rdRaw m rA) true
    (setRegister p.2 rD p.1, some 4)
  | 0x3E =>
    let p := rol m (rdRaw m rA) rB (CU = 1)
    (setRegister p.2 rD p.1, some 4)
  | 0x3F => (rte m, some 0)
  | _ => (m, some 4)

/-- `CPU.prototype.execIForm(insn)` (part_002). -/
def execIForm (m : Machine σ) (insn : Nat) : ExecRes σ :=
  let OP := (insn >>> 27) &&& 0x1F
  let rD := (insn >>> 22) &&& 0x1F
  let func3 := (insn >>> 19) &&& 0x07
  let imm16 := signExtend ((insn >>> 1) &&& 0xFFFF) 16
  if OP = 0x01 then
    match func3 with
    | 0x00 =>
      let p := add m (rdRaw m rD) imm16 false
      (setRegister p.2 rD p.1, some 4)
    | 0x02 => ((sub m (rdRaw m rD) imm16 true).2, some 4)
    | 0x04 =>
      let p := bitOp m (rdRaw m rD) imm16 .opAnd false
      (setRegister p.2 rD p.1, some 4)
    | 0x05 =>
      let p := bitOp m (rdRaw m rD) imm16 .opOr false
      (setRegister p.2 rD p.1, some 4)
    | 0x06 => (setRegister m rD imm16, some 4)
    | _ => (m, some 4)
  else if OP = 0x05 then
    let immHi := u32 (imm16 <<< 16)
    match func3 with
    | 0x00 =>
      let p := add m (rdRaw m rD) immHi false
      (setRegister p.2 rD p.1, some 4)
    | 0x02 => ((sub m (rdRaw m rD) immHi true).2, some 4)
    | 0x04 =>
      let p := bitOp m (rdRaw m rD) immHi .opAnd false
      (setRegister p.2 rD p.1, some 4)
    | 0x05 =>
      let p := bitOp m (rdRaw m rD) immHi .opOr false
      (setRegister p.2 rD p.1, some 4)
    | 0x06 => (setRegister m rD immHi, some 4)
    | _ => (m, some 4)
  else (m, some 4)

/-- `CPU.prototype.execJForm(insn)` (part_002, the sign-extension-corrected
version).  `(pc + (signed_disp << 1)) >>> 0` is congruent mod 2^32 to
`pc + 2 * signExtend disp24 24`, which is what is written here. -/
def execJForm (m : Machine σ) (insn : Nat) : ExecRes σ :=
  let LK := insn &&& 1
  let disp24 := (insn >>> 1) &&& 0xFFFFFF
  let signed_disp := signExtend disp24 24
  let target := (m.pc + signed_disp * 2) % U32M
  let m := if LK = 1 then setRegister m 3 (u32 (m.pc + 4)) else m
  ({ m with pc := target }, some 0)

/-- `CPU.prototype.execBForm(insn)` (part_002). -/
def execBForm (m : Machine σ) (insn : Nat) : ExecRes σ :=
  let LK := insn &&& 1
  let BC := (insn >>> 23) &&& 0x0F
  let disp_high := (insn >>> 9) &&& 0x3FFF
  let disp_low := (insn >>> 1) &&& 0xFF
  let disp22 := (disp_high <<< 8) ||| disp_low
  let signed_disp := signExtend disp22 22
  let target := (m.pc + signed_disp * 2) % U32M
  if conditional m BC then
    let m := if LK = 1 then setRegister m 3 (u32 (m.pc + 4)) else m
    ({ m with pc := target }, some 0)
  else (m, some 4)

/-- `CPU.prototype.execRixForm(insn)` (part_002).  Note the post-increment
(`OP === 0x03`) writes the computed address directly into `this.r[rA]`,
bypassing `setRegister`. -/
def execRixForm (m : Machine σ) (insn : Nat) : ExecRes σ :=
  let OP := (insn >>> 27) &&& 0x1F
  let rD := (insn >>> 22) &&& 0x1F
  let rA := (insn >>> 17) &&& 0x1F
  let imm12 := signExtend ((insn >>> 5) &&& 0xFFF) 12
  let func3 := (insn >>> 2) &&& 0x07
  let addr := (rdRaw m rA + imm12) % U32M
  match m.miu with
  | none => (m, some 4)
  | some ops =>
    let acc : Option (Machine σ) :=
      match func3 with
      | 0x00 => (ops.readU32 m.mem addr).map (fun v => setRegister m rD v)
      | 0x01 => (ops.readU16 m.mem addr).map (fun v => setRegister m rD (signExtend v 16))
      | 0x02 => (ops.readU16 m.mem addr).map (fun v => setRegister m rD v)
      | 0x03 => (ops.readU8 m.mem addr).map (fun v => setRegister m rD (signExtend v 8))
      | 0x04 => (ops.writeU32 m.mem addr (rdRaw m rD)).map (fun s => { m with mem := s })
      | 0x05 => (ops.writeU16 m.mem addr (rdRaw m rD)).map (fun s => { m with mem := s })
      | 0x06 => (ops.readU8 m.mem addr).map (fun v => setRegister m rD v)
      | 0x07 => (ops.writeU8 m.mem addr (rdRaw m rD)).map (fun s => { m with mem := s })
      | _ => some m
    match acc with
    | none => (m, none)
    | some m' =>
      let m'' := if OP = 0x03 then setRdirect m' rA addr else m'
      (m'', some 4)

/-- `CPU.prototype.execMemoryForm(insn)` (part_002). -/
def execMemoryForm (m : Machine σ) (insn : Nat) : ExecRes σ :=
  let OP := (insn >>> 27) &&& 0x1F
  let rD := (insn >>> 22) &&& 0x1F
  let rA := (insn >>> 17) &&& 0x1F
  let imm15 := signExtend ((insn >>> 2) &&& 0x7FFF) 15
  let addr := (rdRaw m rA + imm15) % U32M
  match m.miu with
  | none => (m, some 4)
  | some ops =>
    let acc : Option (Machine σ) :=
      match OP with
      | 0x10 => (ops.readU32 m.mem addr).map (fun v => setRegister m rD v)
      | 0x11 => (ops.readU16 m.mem addr).map (fun v => setRegister m rD (signExtend v 16))
      | 0x12 => (ops.readU16 m.mem addr).map (fun v => setRegister m rD v)
      | 0x13 => (ops.readU8 m.mem addr).map (fun v => setRegister m rD (signExtend v 8))
      | 0x14 => (ops.writeU32 m.mem addr (rdRaw m rD)).map (fun s => { m with mem := s })
      | 0x15 => (ops.writeU16 m.mem addr (rdRaw m rD)).map (fun s => { m with mem := s })
      | 0x16 => (ops.readU8 m.mem addr).map (fun v => setRegister m rD v)
      | 0x17 => (ops.writeU8 m.mem addr (rdRaw m rD)).map (fun s => { m with mem := s })
      | _ => some m
    match acc with
    | none => (m, none)
    | some m' => (m', some 4)

/-- `CPU.prototype.exec16(insn)` (cpu_part3.js): 16-bit compressed forms. -/
def exec16 (m : Machine σ) (insn : Nat) : ExecRes σ :=
  let OP := (insn >>> 13) &&& 0x07
  let rD := (insn >>> 1) &&& 0x0F
  let rA := (insn >>> 5) &&& 0x0F
  match OP with
  | 0x00 =>
    let func4 := (insn >>> 9) &&& 0x0F
    match func4 with
    | 0x00 => (setRegister m (rD + 16) (rdRaw m (rA + 16)), some 2)
    | 0x01 => (setRegister m rD (rdRaw m rA), some 2)
    | 0x03 => (setRegister m rD (rdRaw m rA), some 2)
    | 0x04 => ({ m with pc := rdRaw m rA }, some 0)
    | 0x05 =>
      let m := setRegister m 3 (u32 (m.pc + 2))
      ({ m with pc := rdRaw m rA }, some 0)
    | 0x06 =>
      let imm11 := (insn >>> 5) &&& 0x7FF
      ({ m with pc := (m.pc + signExtend imm11 11 * 2) % U32M }, some 0)
    | 0x07 =>
      let imm11 := (insn >>> 5) &&& 0x7FF
      let target := (m.pc + signExtend imm11 11 * 2) % U32M
      let m := setRegister m 3 (u32 (m.pc + 2))
      ({ m with pc := target }, some 0)
    | 0x0A => (m, some 2)
    | 0x0B => (exception m 0x09, some 2)
    | _ => (m, some 2)
  | 0x02 =>
    let func4 := (insn >>> 9) &&& 0x0F
    let H := (insn >>> 5) &&& 1
    let targetReg := rD + (if H = 1 then 16 else 0)
    let stackReg := (insn >>> 6) &&& 0x07
    match func4 with
    | 0x00 =>
      let p := add m (rdRaw m rD) (rdRaw m rA) true
      (setRegister p.2 rD p.1, some 2)
    | 0x01 =>
      let imm5 := (insn >>> 5) &&& 0x1F
      let p := add m (rdRaw m rD) imm5 true
      (setRegister p.2 rD p.1, some 2)
    | 0x02 =>
      let imm5 := (insn >>> 5) &&& 0x1F
      let p := sub m (rdRaw m rD) imm5 true
      (setRegister p.2 rD p.1, some 2)
    | 0x03 =>
      let imm5 := (insn >>> 5) &&& 0x1F
      (setRegister m rD imm5, some 2)
    | 0x04 =>
      let imm5 := (insn >>> 5) &&& 0x1F
      (setRegister m rD (u32 (imm5 <<< 11)), some 2)
    | 0x05 =>
      let p := bitOp m (rdRaw m rD) (rdRaw m rA) .opAnd true
      (setRegister p.2 rD p.1, some 2)
    | 0x06 =>
      let p := bitOp m (rdRaw m rD) (rdRaw m rA) .opOr true
      (setRegister p.2 rD p.1, some 2)
    | 0x07 =>
      let p := bitOp m (rdRaw m rD) (rdRaw m rA) .opXor true
      (setRegister p.2 rD p.1, some 2)
    | 0x08 =>
      let p := bitOp m (rdRaw m rD) 0 .opNot true
      (setRegister p.2 rD p.1, some 2)
    | 0x09 =>
      let p := neg m (rdRaw m rD) true
      (setRegister p.2 rD p.1, some 2)
    | 0x0A =>
      match m.miu with
      | some ops =>
        let imm5 := (insn >>> 5) &&& 0x1F
        let addr := (rdRaw m stackReg + imm5 * 4) % U32M
        match ops.readU32 m.mem addr with
        | some v => (setRegister m targetReg v, some 2)
        | none => (m, none)
      | none => (m, some 2)
    | 0x0B =>
      match m.miu with
      | some ops =>
        let imm5 := (insn >>> 5) &&& 0x1F
        let addr := (rdRaw m stackReg + imm5 * 4) % U32M
        match ops.writeU32 m.mem addr (rdRaw m targetReg) with
        | some s => ({ m with mem := s }, some 2)
        | none => (m, none)
      | none => (m, some 2)
    | 0x0C =>
      let p := sub m (rdRaw m rD) (rdRaw m rA) true
      (setRegister p.2 rD p.1, some 2)
    | 0x0E =>
      let m := setRdirect m stackReg ((rdRaw m stackReg + (U32M - 4)) % U32M)
      match m.miu with
      | some ops =>
        match ops.writeU32 m.mem (rdRaw m stackReg) (rdRaw m targetReg) with
        | some s => ({ m with mem := s }, some 2)
        | none => (m, none)
      | none => (m, some 2)
    | 0x0F =>
      match m.miu with
      | some ops =>
        match ops.readU32 m.mem (rdRaw m stackReg) with
        | some v =>
          let m := setRegister m targetReg v
          (setRdirect m stackReg ((rdRaw m stackReg + 4) % U32M), some 2)
        | none => (m, none)
      | none => (setRdirect m stackReg ((rdRaw m stackReg + 4) % U32M), some 2)
    | _ => (m, some 2)
  | 0x03 =>
    let imm5 := (insn >>> 4) &&& 0x1F
    let addr := (rdRaw m rA + imm5 * 4) % U32M
    if (insn >>> 12) &&& 1 = 1 then
      match m.miu with
      | some ops =>
        match ops.writeU32 m.mem addr (rdRaw m rD) with
        | some s => ({ m with mem := s }, some 2)
        | none => (m, none)
      | none => (m, some 2)
    else
      match m.miu with
      | some ops =>
        match ops.readU32 m.mem addr with
        | some v => (setRegister m rD v, some 2)
        | none => (m, none)
      | none => (m, some 2)
  | 0x04 =>
    let cond := (insn >>> 10) &&& 0x0F
    let imm8 := signExtend ((insn >>> 1) &&& 0xFF) 8
    let target := (m.pc + imm8 * 2) % U32M
    if conditional m cond then ({ m with pc := target }, some 0)
    else (m, some 2)
  | 0x05 =>
    let func3 := (insn >>> 10) &&& 0x07
    let imm5 := (insn >>> 5) &&& 0x1F
    match func3 with
    | 0x00 =>
      let p := sll m (rdRaw m rD) imm5 true
      (setRegister p.2 rD p.1, some 2)
    | 0x02 =>
      let p := srl m (rdRaw m rD) imm5 true
      (setRegister p.2 rD p.1, some 2)
    | 0x03 =>
      let p := sra m (rdRaw m rD) imm5 true
      (setRegister p.2 rD p.1, some 2)
    | 0x04 =>
      let p := rol m (rdRaw m rD) imm5 true
      (setRegister p.2 rD p.1, some 2)
    | 0x05 =>
      let p := ror m (rdRaw m rD) imm5 true
      (setRegister p.2 rD p.1, some 2)
    | _ => (m, some 2)
  | 0x06 =>
    let func3 := (insn >>> 10) &&& 0x07
    match func3 with
    | 0x00 =>
      let p := extsb m (rdRaw m rD) true
      (setRegister p.2 rD p.1, some 2)
    | 0x01 =>
      let p := extsh m (rdRaw m rD) true
      (setRegister p.2 rD p.1, some 2)
    | 0x02 =>
      let p := extzb m (rdRaw m rD) true
      (setRegister p.2 rD p.1, some 2)
    | 0x03 =>
      let p := extzh m (rdRaw m rD) true
      (setRegister p.2 rD p.1, some 2)
    | _ => (m, some 2)
  | 0x07 =>
    let imm5 := (insn >>> 5) &&& 0x1F
    let addr := (rdRaw m 2 + imm5 * 4) % U32M
    if (insn >>> 10) &&& 1 = 1 then
      match m.miu with
      | some ops =>
        match ops.writeU32 m.mem addr (rdRaw m rD) with
        | some s => ({ m with mem := s }, some 2)
        | none => (m, none)
      | none => (m, some 2)
    else
      match m.miu with
      | some ops =>
        match ops.readU32 m.mem addr with
        | some v => (setRegister m rD v, some 2)
        | none => (m, none)
      | none => (m, some 2)
  | _ => (m, some 2)

/-- Numeric code for the `last_error` message set by the missing-MIU guard
("MIU desconectado ou nao inicializado"). -/
def ERR_NO_MIU : Nat := 0

/-- Numeric code for the message of a host exception caught at the
`step()` boundary (`e.message`). -/
def ERR_CAUGHT : Nat := 1

/-- `CPU.prototype.step()` (part_002).  Returns the JS boolean result and
the machine after the call.  The breakpoint check is a no-op because no
breakpoint manager is attached in the modelled configuration. -/
def step (m : Machine σ) : Bool × Machine σ :=
  if m.initFlag = false then (false, m)
  else if m.halted then (false, m)
  else
    match m.miu with
    | none =>
      let fc := m.fault_count + 1
      let m := { m with fault_count := fc, lastError := some ERR_NO_MIU }
      if 100 < fc then (false, { m with halted := true }) else (false, m)
    | some ops =>
      let m := { m with fault_count := 0 }
      if ops.size < m.pc then (false, exception m 0xFF)
      else
        match ops.readU32 m.mem m.pc with
        | none =>
          (false, { m with fault_count := m.fault_count + 1, lastError := some ERR_CAUGHT })
        | some encoded =>
          let OP := (encoded >>> 27) &&& 0x1F
          let er : ExecRes σ :=
            if OP = 0x00 then execSpForm m encoded
            else if OP = 0x01 ∨ OP = 0x05 then execIForm m encoded
            else if OP = 0x02 then execJForm m encoded
            else if OP = 0x03 ∨ OP = 0x07 then execRixForm m encoded
            else if OP = 0x04 then execBForm m encoded
            else if 0x10 ≤ OP ∧ OP ≤ 0x17 then execMemoryForm m encoded
            else if (0x08 ≤ OP ∧ OP ≤ 0x0F) ∨ (0x18 ≤ OP ∧ OP ≤ 0x1F) then
              exec16 m (encoded &&& 0xFFFF)
            else (m, some 4)
          match er with
          | (m', none) =>
            (false, { m' with fault_count := m'.fault_count + 1, lastError := some ERR_CAUGHT })
          | (m', some delta) =>
            let m'' := if delta ≠ 0 then { m' with pc := u32 (m'.pc + delta) } else m'
            (true, { m'' with cycles := m''.cycles + 1, instructions := m''.instructions + 1 })

/-- `n` consecutive `step()` calls (keeping only the state). -/
def iterStep (m : Machine σ) : Nat → Machine σ
  | 0 => m
  | n + 1 => (step (iterStep m n)).2

/-- The interrupt-controller register file and statistics
(src/unnamed/part_001, `class InterruptController`): registers hold the
32-bit patterns of the JS numbers. -/
structure Intc where
  INT_MASK : Nat := 0xFFFFFFFF
  INT_PRIO : Nat := 0
  INT_STATUS : Nat := 0
  INT_ACK : Nat := 0
  statTriggered : Nat := 0
  statProcessed : Nat := 0
  statBlocked : Nat := 0

/-- An interrupt controller together with its (optionally connected) CPU,
as wired by `connectCPU`. -/
structure IntcSys (σ : Type) where
  intc : Intc
  cpu : Option (Machine σ)

/-- `InterruptController.trigger(irqNumber)` (part_001, v2 signature).
The connected CPU always has an `exception` method in this repository, so
the `typeof` guard is always satisfied. -/
def trigger (s : IntcSys σ) (irq : Int) : IntcSys σ :=
  if irq < 0 ∨ 31 < irq then
    { s with intc := { s.intc with statBlocked := s.intc.statBlocked + 1 } }
  else
    let n := irq.toNat
    let i := { s.intc with statTriggered := s.intc.statTriggered + 1 }
    let i := { i with INT_STATUS := i.INT_STATUS ||| (1 <<< n) }
    match s.cpu with
    | some c =>
      if i.INT_MASK &&& (1 <<< n) ≠ 0 then
        { intc := { i with statProcessed := i.statProcessed + 1 },
          cpu := some (exception c n) }
      else
        { intc := { i with statBlocked := i.statBlocked + 1 }, cpu := s.cpu }
    | none =>
      { intc := { i with statBlocked := i.statBlocked + 1 }, cpu := none }

/-- `InterruptController.enableIRQ(irqNumber)`. -/
def enableIRQ (i : Intc) (irq : Int) : Intc :=
  if 0 ≤ irq ∧ irq < 32 then
    { i with INT_MASK := i.INT_MASK ||| (1 <<< irq.toNat) }
  else i

/-- `InterruptController.disableIRQ(irqNumber)`; the int32 coercion of the
`&=` compound store keeps the register inside 32 bits. -/
def disableIRQ (i : Intc) (irq : Int) : Intc :=
  if 0 ≤ irq ∧ irq < 32 then
    { i with INT_MASK := u32 (i.INT_MASK &&& (4294967295 ^^^ (1 <<< irq.toNat))) }
  else i

/-- A CPU state as left by `reset()` followed by `initializeCPU(miu)`:
all registers and counters zero, flags clear, not halted, fault counter
zero, with the given pc, memory interface and memory state. -/
def initMachine (σ : Type) (pc0 : Nat) (miu0 : Option (MiuOps σ)) (mem0 : σ) : Machine σ :=
  { r := fun _ => 0, cr := fun _ => 0, sr := fun _ => 0, CEL := 0, CEH := 0,
    pc := pc0, N := 0, Z := 0, C := 0, V := 0, T := 0, cycles := 0,
    instructions := 0, halted := false, initFlag := true, fault_count := 0,
    lastError := none, miu := miu0, mem := mem0 }

/-! ### Concrete test environments used by individual claims -/

/-- A plain word-addressed RAM environment for exercising `step()`:
reads always succeed, writes update the word map. -/
def ramOps : MiuOps (Nat → Nat) := {
  size := 0x1000000,
  readU8 := fun f a => some (f a &&& 0xFF),
  readU16 := fun f a => some (f a &&& 0xFFFF),
  readU32 := fun f a => some (f a),
  writeU8 := fun f a v => some (Function.update f a (v % 256)),
  writeU16 := fun f a v => some (Function.update f a (v % 65536)),
  writeU32 := fun f a v => some (Function.update f a (v % U32M)) }

/-- CPU whose memory holds, at every address, the RIX-Form word 0x18000090:
OP = 0x03 (post-increment), rD = 0, rA = 0, imm12 = +4, func3 = 0x04 (sw). -/
def mRix : Machine (Nat → Nat) := initMachine _ 0 (some ramOps) (fun _ => 0x18000090)

/-- A memory interface every access of which throws (models a MIU object
whose read/write methods raise), for exercising the `step()` catch path. -/
def throwOps : MiuOps Unit := {
  size := 1000,
  readU8 := fun _ _ => none, readU16 := fun _ _ => none, readU32 := fun _ _ => none,
  writeU8 := fun _ _ _ => none, writeU16 := fun _ _ _ => none,
  writeU32 := fun _ _ _ => none }

/-- Initialized CPU whose every fetch throws. -/
def mThrow : Machine Unit := initMachine _ 0 (some throwOps) ()

/-- A CPU state with a mixed flag combination, for witnesses. -/
def mFlags : Machine Unit :=
  { initMachine Unit 0x1234 none () with N := 1, Z := 0, C := 1, V := 0, T := 1 }

/-- A memory interface constantly fetching the unknown-opcode word
0x30000000 (top five bits 0x06). -/
def nopOps : MiuOps Unit := {
  size := 100,
  readU8 := fun _ _ => some 0, readU16 := fun _ _ => some 0,
  readU32 := fun _ _ => some 0x30000000,
  writeU8 := fun s _ _ => some s, writeU16 := fun s _ _ => some s,
  writeU32 := fun s _ _ => some s }

/-- Initialized CPU fetching the unknown opcode 0x06. -/
def mNop : Machine Unit := initMachine _ 0 (some nopOps) ()

/-- A memory interface constantly fetching the J-Form word 0x11FFFFFE
(OP = 0x02, disp24 = 0xFFFFFF, link bit clear). -/
def jOps : MiuOps Unit := {
  size := 0xA0000000,
  readU8 := fun _ _ => some 0, readU16 := fun _ _ => some 0,
  readU32 := fun _ _ => some 0x11FFFFFE,
  writeU8 := fun s _ _ => some s, writeU16 := fun s _ _ => some s,
  writeU32 := fun s _ _ => some s }

/-- The C6 end-to-end scenario machine: pc = 0x9E000010, fetching the
J-Form word with disp24 = 0xFFFFFF. -/
def mJ2 : Machine Unit := initMachine _ 0x9E000010 (some jOps) ()

/-- The same J-Form word executed at pc = 0: the target wraps mod 2^32. -/
def mJ0 : Machine Unit := initMachine _ 0 (some jOps) ()

/-- A CPU connected to an interrupt controller, for the C7 witness. -/
def mIrq : Machine Unit := initMachine Unit 0x500 none ()

/-- Freshly constructed controller (INT_MASK all-enabled) with `mIrq`
connected. -/
def sIrq : IntcSys Unit := { intc := {}, cpu := some mIrq }

/-- A CPU mid-handler (cr[0] bit 0 already cleared), halted and not
initialized, for the C10 witness. -/
def mGate : Machine Unit :=
  { initMachine Unit 0x77 none () with halted := true, initFlag := false }

/-- Controller with `mGate` connected, for the C10 witness. -/
def sGate : IntcSys Unit := { intc := {}, cpu := some mGate }

/-! ### Theorems for the claims -/

/-- Claim C8: for every value a, `execDiv(a, 0)` and `execDivu(a, 0)` are
silent no-ops: the entire CPU state (including CEL/CEH, registers, flags
and pc) is returned unchanged and no guest exception is raised. -/
theorem execDiv_by_zero_noop {σ : Type} (m : Machine σ) (a : Nat) :
    execDiv m a 0 = m ∧ execDivu m a 0 = m := by
  constructor <;> simp [execDiv, execDivu, toInt32, u32, U32M]

/-- Claim C1 (divergence evaluation): the r0-is-always-zero invariant is
broken by the RIX-Form post-increment write-back.  On an initialized CPU
with memory attached and r0 = 0, executing the word 0x18000090 (OP = 0x03,
rA = 0, imm12 = +4, store-word) makes `step()` succeed and leaves a
subsequent `getRegister(0)` returning 4, not 0. -/
theorem r0_clobbered_by_rix_postinc :
    mRix.r 0 = 0 ∧ (step mRix).1 = true ∧ getRegister (step mRix).2 0 = 4 := by
  refine ⟨rfl, ?_, ?_⟩ <;> decide

/-- Claim C2 (divergence evaluation): `step()` resets `fault_count` to 0
before the decode/execute try-block, not on successful completion.  With a
memory interface whose fetch always throws, a faulting `step()` ends with
`fault_count = 1` no matter how large the counter was before the call, so
101 consecutive caught decode faults leave `fault_count = 1` and never
force `halted`. -/
theorem fault_count_reset_before_decode :
    (∀ fc : Nat,
        (step { mThrow with fault_count := fc }).1 = false
      ∧ (step { mThrow with fault_count := fc }).2.fault_count = 1
      ∧ (step { mThrow with fault_count := fc }).2.halted = false)
  ∧ (iterStep mThrow 101).fault_count = 1
  ∧ (iterStep mThrow 101).halted = false := by
  refine ⟨fun fc => ⟨rfl, rfl, rfl⟩, ?_, ?_⟩ <;> decide

/-- A halted CPU ignores `step()`: it returns false and changes nothing. -/
theorem step_of_halted {σ : Type} (m : Machine σ) (h : m.halted = true) :
    step m = (false, m) := by
  unfold step
  rcases hI : m.initFlag with _ | _
  · simp [hI]
  · simp [hI, h]

/-- Field-wise effect of one `step()` on an initialized, running CPU with
no memory interface attached (the fault-counting guard path). -/
theorem step_noMiu_fields {σ : Type} (m : Machine σ) (hI : m.initFlag = true)
    (hH : m.halted = false) (hM : m.miu = none) :
    (step m).1 = false
  ∧ (step m).2.initFlag = true
  ∧ (step m).2.halted = (if 100 < m.fault_count + 1 then true else false)
  ∧ (step m).2.miu = none
  ∧ (step m).2.fault_count = m.fault_count + 1
  ∧ (step m).2.instructions = m.instructions := by
  unfold step
  simp only [hI, hH, hM]
  split_ifs <;> simp_all

/-- Claim C3: from an initialized, non-halted CPU with `fault_count = 0`
and the memory interface detached, 101 consecutive `step()` calls leave
`halted = true`, and the 101st and every later call returns false without
incrementing `instructions`. -/
theorem fault_breaker {σ : Type} (m0 : Machine σ) (hI : m0.initFlag = true)
    (hH : m0.halted = false) (hF : m0.fault_count = 0) (hM : m0.miu = none) :
    (iterStep m0 101).halted = true
  ∧ ∀ k, 100 ≤ k →
      (step (iterStep m0 k)).1 = false
    ∧ (iterStep m0 (k + 1)).instructions = m0.instructions := by
  have inv : ∀ k, k ≤ 100 →
      (iterStep m0 k).initFlag = true
    ∧ (iterStep m0 k).halted = false
    ∧ (iterStep m0 k).miu = none
    ∧ (iterStep m0 k).fault_count = k
    ∧ (iterStep m0 k).instructions = m0.instructions := by
    intro k hk
    induction k with
    | zero => exact ⟨hI, hH, hM, hF, rfl⟩
    | succ n ih =>
      obtain ⟨i1, i2, i3, i4, i5⟩ := ih (by omega)
      obtain ⟨_, s2, s3, s4, s5, s6⟩ := step_noMiu_fields (iterStep m0 n) i1 i2 i3
      simp only [iterStep]
      refine ⟨s2, ?_, s4, by rw [s5, i4], by rw [s6, i5]⟩
      rw [s3, i4, if_neg (by omega)]
  have h100 := inv 100 (by omega)
  have hs100 := step_noMiu_fields (iterStep m0 100) h100.1 h100.2.1 h100.2.2.1
  have h101halt : (iterStep m0 101).halted = true := by
    have h := hs100.2.2.1
    rw [h100.2.2.2.1, if_pos (by omega)] at h
    exact h
  have h101instr : (iterStep m0 101).instructions = m0.instructions := by
    rw [show (iterStep m0 101).instructions = (step (iterStep m0 100)).2.instructions from rfl,
        hs100.2.2.2.2.2, h100.2.2.2.2]
  have hfix : ∀ k, 101 ≤ k → iterStep m0 k = iterStep m0 101 := by
    intro k hk
    induction k, hk using Nat.le_induction with
    | base => rfl
    | succ n hn ih =>
      show (step (iterStep m0 n)).2 = _
      rw [ih, step_of_halted _ h101halt]
  refine ⟨h101halt, fun k hk => ?_⟩
  rcases Nat.eq_or_lt_of_le hk with h | h
  · exact ⟨by rw [← h]; exact hs100.1, by rw [← h]; exact h101instr⟩
  · have hk1 : 101 ≤ k := h
    refine ⟨?_, ?_⟩
    · rw [hfix k hk1, step_of_halted _ h101halt]
    · rw [hfix (k + 1) (by omega), h101instr]

/-- Witness for `fault_breaker` at a concrete detached CPU. -/
theorem fault_breaker_witness :
    (iterStep (initMachine Unit 0 none ()) 101).halted = true
  ∧ (step (iterStep (initMachine Unit 0 none ()) 101)).1 = false := by
  obtain ⟨h1, h2⟩ := fault_breaker (initMachine Unit 0 none ()) rfl rfl rfl rfl
  exact ⟨h1, (h2 101 (by omega)).1⟩

/-- Claim C4: for every CPU state with flag bits in {0,1} (all 32
combinations), `exception(5)` followed by `rte()` restores `pc` and all
five flags exactly; and packing the flags into sr[0] then unpacking
reproduces N, Z, C, V, T exactly. -/
theorem exception_rte_roundtrip {σ : Type} (m : Machine σ) (hN : m.N ≤ 1)
    (hZ : m.Z ≤ 1) (hC : m.C ≤ 1) (hV : m.V ≤ 1) (hT : m.T ≤ 1) :
    (rte (exception m 5)).pc = m.pc
  ∧ (rte (exception m 5)).N = m.N
  ∧ (rte (exception m 5)).Z = m.Z
  ∧ (rte (exception m 5)).C = m.C
  ∧ (rte (exception m 5)).V = m.V
  ∧ (rte (exception m 5)).T = m.T
  ∧ (unpackSR0 (packSR0 m)).N = m.N
  ∧ (unpackSR0 (packSR0 m)).Z = m.Z
  ∧ (unpackSR0 (packSR0 m)).C = m.C
  ∧ (unpackSR0 (packSR0 m)).V = m.V
  ∧ (unpackSR0 (packSR0 m)).T = m.T := by
  obtain h1 | h1 := Nat.le_one_iff_eq_zero_or_eq_one.mp hN <;>
  obtain h2 | h2 := Nat.le_one_iff_eq_zero_or_eq_one.mp hZ <;>
  obtain h3 | h3 := Nat.le_one_iff_eq_zero_or_eq_one.mp hC <;>
  obtain h4 | h4 := Nat.le_one_iff_eq_zero_or_eq_one.mp hV <;>
  obtain h5 | h5 := Nat.le_one_iff_eq_zero_or_eq_one.mp hT <;>
  simp_all [exception, rte, packSR0, unpackSR0, u32, U32M, Function.update]


/-- Witness for `exception_rte_roundtrip` at a concrete machine. -/
theorem exception_rte_roundtrip_witness :
    (rte (exception mFlags 5)).pc = mFlags.pc
  ∧ (rte (exception mFlags 5)).N = mFlags.N
  ∧ (rte (exception mFlags 5)).T = mFlags.T := by
  obtain ⟨a, b, c, d, e, f, g, h, i, j, k⟩ :=
    exception_rte_roundtrip mFlags (by decide) (by decide) (by decide) (by decide) (by decide)
  exact ⟨a, b, f⟩

/-- Claim C5: for 32-bit unsigned a and b, `sub(a, b, true)` returns
(a - b) mod 2^32 with C = 1 iff a >= b, `add(a, b, true)` returns
(a + b) mod 2^32 with C = 1 iff b > 0xFFFFFFFF - a (equivalently iff the
sum overflows 32 bits); both set N to bit 31 of the result and Z = 1 iff
the result is 0. -/
theorem sub_add_result_and_carry {σ : Type} (m : Machine σ) (a b : Nat)
    (ha : a < U32M) (hb : b < U32M) :
    (sub m a b true).1 = (a + (U32M - b)) % U32M
  ∧ ((sub m a b true).1 : Int) = ((a : Int) - (b : Int)) % 4294967296
  ∧ ((sub m a b true).2.C = 1 ↔ b ≤ a)
  ∧ (sub m a b true).2.N = (sub m a b true).1 / 2 ^ 31 % 2
  ∧ ((sub m a b true).2.Z = 1 ↔ (sub m a b true).1 = 0)
  ∧ (add m a b true).1 = (a + b) % U32M
  ∧ ((add m a b true).2.C = 1 ↔ 4294967295 - a < b)
  ∧ ((add m a b true).2.C = 1 ↔ U32M ≤ a + b)
  ∧ (add m a b true).2.N = (add m a b true).1 / 2 ^ 31 % 2
  ∧ ((add m a b true).2.Z = 1 ↔ (add m a b true).1 = 0) := by
  have hma : a % 4294967296 = a := Nat.mod_eq_of_lt ha
  have hmb : b % 4294967296 = b := Nat.mod_eq_of_lt hb
  have ha2 : a < 4294967296 := ha
  have hb2 : b < 4294967296 := hb
  refine ⟨?_, ?_, ?_, ?_, ?_, ?_, ?_, ?_, ?_, ?_⟩ <;>
    simp [sub, add, u32, u32I, U32M, updateBasicFlags, hma, hmb,
      Nat.shiftRight_eq_div_pow, Nat.and_one_is_mod]
  all_goals omega

/-- Witness for `sub_add_result_and_carry` at a = 5, b = 7. -/
theorem sub_add_result_and_carry_witness :
    ((sub (initMachine Unit 0 none ()) 5 7 true).2.C = 1 ↔ (7 : Nat) ≤ 5)
  ∧ (add (initMachine Unit 0 none ()) 5 7 true).1 = 12 := by
  obtain ⟨h1, h2, h3, h4, h5, h6, h7, h8, h9, h10⟩ :=
    sub_add_result_and_carry (initMachine Unit 0 none ()) 5 7 (by decide) (by decide)
  refine ⟨h3, ?_⟩
  rw [h6]
  decide


/-- Claim C9: an instruction word whose top five bits are 0x06 (assigned
to no form) is treated by `step()` as a successful 4-byte no-op: pc
advances by exactly 4, cycles and instructions increase by 1, `step()`
returns true, and no register, flag or memory state changes (the fault
counter is reset to 0 by the pre-decode reset). -/
theorem step_unknown_opcode {σ : Type} (ops : MiuOps σ) (m : Machine σ) (insn : Nat)
    (hmiu : m.miu = some ops) (hI : m.initFlag = true) (hH : m.halted = false)
    (hpc : m.pc ≤ ops.size) (hread : ops.readU32 m.mem m.pc = some insn)
    (hOP : (insn >>> 27) &&& 0x1F = 6) (hwrap : m.pc + 4 < U32M) :
    step m = (true, { m with fault_count := 0, pc := m.pc + 4,
                             cycles := m.cycles + 1, instructions := m.instructions + 1 }) := by
  unfold step
  rw [hmiu]
  simp only [hI, hH, hread, hOP, Nat.not_lt.mpr hpc, if_false]
  norm_num
  simp [u32, U32M, Nat.mod_eq_of_lt hwrap]
  exact hwrap



/-- Witness for `step_unknown_opcode` at a concrete machine. -/
theorem step_unknown_opcode_witness :
    step mNop = (true, { mNop with fault_count := 0, pc := mNop.pc + 4,
                                   cycles := mNop.cycles + 1,
                                   instructions := mNop.instructions + 1 }) :=
  step_unknown_opcode nopOps mNop 0x30000000 rfl rfl rfl (by decide) rfl (by decide) (by decide)




/-- Claim C6 counterexample: executing the J-Form word with disp24 =
0xFFFFFF (bit 23 set) at pc = 0 jumps to 0xFFFFFFFE, which is not below
pc: with a small pc the "backward" jump wraps modulo 2^32 and lands above
pc, refuting the unconditional target < pc consequent. -/
theorem jform_backward_counterexample :
    mJ0.pc = 0
  ∧ (step mJ0).2.pc = 0xFFFFFFFE
  ∧ ¬ ((step mJ0).2.pc < mJ0.pc) := by
  refine ⟨rfl, ?_, ?_⟩ <;> decide

/-- Claim C6 as amended: a J-Form displacement with bit 23 set jumps
backward by 2*(2^24 - disp24) — so target < pc — whenever that doubled
magnitude does not exceed pc (no mod-2^32 wraparound); the link bit
stores pc + 4 into register 3; and in the concrete scenario, the word
0x11FFFFFE (disp24 = 0xFFFFFF) at pc = 0x9E000010 leaves pc = 0x9E00000E
after a successful `step()`. -/
theorem jform_signext_backward {σ : Type} (m : Machine σ) (insn d : Nat)
    (hd : d = (insn >>> 1) &&& 0xFFFFFF)
    (hbit : 2 ^ 23 ≤ d)
    (hnowrap : 2 * (2 ^ 24 - d) ≤ m.pc)
    (hpc : m.pc < U32M) :
    (execJForm m insn).1.pc = m.pc - 2 * (2 ^ 24 - d)
  ∧ (execJForm m insn).1.pc < m.pc
  ∧ (insn &&& 1 = 1 → getRegister (execJForm m insn).1 3 = (m.pc + 4) % U32M)
  ∧ (step mJ2).1 = true
  ∧ (step mJ2).2.pc = 0x9E00000E := by
  have hle : d ≤ 16777215 := by rw [hd]; exact Nat.and_le_right
  have hsx : signExtend d 24 = d + (U32M - 16777216) := by
    unfold signExtend
    rw [if_neg (by omega), Nat.mod_eq_of_lt (by omega)]
    have h23 : (2 : Nat) ^ (24 - 1) ≤ d := by
      have h := hbit
      omega
    rw [if_pos h23]
    norm_num
  have hU : U32M = 4294967296 := rfl
  refine ⟨?_, ?_, ?_, by decide, by decide⟩
  · simp only [execJForm, ← hd, hsx, hU]
    omega
  · simp only [execJForm, ← hd, hsx, hU]
    omega
  · intro h1
    simp [execJForm, h1, setRegister, getRegister, u32, Function.update]

/-- Witness for `jform_signext_backward`: disp24 = 0xFFFFFF with link bit
set, executed at pc = 100, lands on 98 and stores 104 in r3. -/
theorem jform_signext_backward_witness :
    (execJForm (initMachine Unit 100 none ()) 0x11FFFFFF).1.pc = 98
  ∧ getRegister (execJForm (initMachine Unit 100 none ()) 0x11FFFFFF).1 3 = 104 := by
  obtain ⟨h1, h2, h3, h4, h5⟩ :=
    jform_signext_backward (initMachine Unit 100 none ()) 0x11FFFFFF 0xFFFFFF
      (by decide) (by decide) (by decide) (by decide)
  refine ⟨?_, ?_⟩
  · rw [h1]; decide
  · rw [h3 (by decide)]; decide

/-- The `isEnabled` test of `trigger` (`INT_MASK & (1 << irq) !== 0`)
holds exactly when the mask bit is set. -/
theorem and_shift_ne_zero_iff_testBit (x n : Nat) :
    (x &&& (1 <<< n) ≠ 0) ↔ x.testBit n = true := by
  rw [Nat.shiftLeft_eq, one_mul, Nat.and_two_pow]
  cases h : x.testBit n <;> simp [h]

/-- Claim C7: for irq in 0..31, `trigger(irq)` always sets bit irq of
INT_STATUS; it invokes the CPU exception entry with cause = irq and
counts the IRQ as processed iff the mask bit is set and a CPU is
connected, and otherwise leaves the CPU untouched and increments the
blocked counter; for irq outside 0..31 it changes no register and no CPU
state, never throws (it is a total function), and counts the call as
blocked. -/
theorem trigger_spec {σ : Type} (s : IntcSys σ) (irq : Int) :
    (0 ≤ irq → irq ≤ 31 →
        ((trigger s irq).intc.INT_STATUS.testBit irq.toNat = true
      ∧ (∀ c, s.cpu = some c → s.intc.INT_MASK.testBit irq.toNat = true →
            (trigger s irq).cpu = some (exception c irq.toNat)
          ∧ (trigger s irq).intc.statProcessed = s.intc.statProcessed + 1)
      ∧ (s.cpu = none ∨ s.intc.INT_MASK.testBit irq.toNat = false →
            (trigger s irq).cpu = s.cpu
          ∧ (trigger s irq).intc.statBlocked = s.intc.statBlocked + 1)))
  ∧ ((irq < 0 ∨ 31 < irq) →
        (trigger s irq).intc.INT_MASK = s.intc.INT_MASK
      ∧ (trigger s irq).intc.INT_STATUS = s.intc.INT_STATUS
      ∧ (trigger s irq).intc.INT_PRIO = s.intc.INT_PRIO
      ∧ (trigger s irq).cpu = s.cpu
      ∧ (trigger s irq).intc.statBlocked = s.intc.statBlocked + 1) := by
  constructor
  · intro h0 h31
    have hval : ¬ (irq < 0 ∨ 31 < irq) := by omega
    refine ⟨?_, ?_, ?_⟩
    · rcases hc : s.cpu with _ | c
      · simp only [trigger, if_neg hval, hc]
        simp [Nat.testBit_or, Nat.shiftLeft_eq, Nat.testBit_two_pow_self]
      · simp only [trigger, if_neg hval, hc]
        split_ifs <;>
          simp [Nat.testBit_or, Nat.shiftLeft_eq, Nat.testBit_two_pow_self]
    · intro c hc hm
      simp only [trigger, if_neg hval, hc]
      split_ifs with hmask
      · constructor <;> rfl
      · exact absurd ((and_shift_ne_zero_iff_testBit _ _).mpr hm) hmask
    · intro hdis
      rcases hc : s.cpu with _ | c
      · simp [trigger, if_neg hval, hc]
      · rcases hdis with h | hmf
        · rw [hc] at h; exact absurd h (by simp)
        · have hno : ¬ (s.intc.INT_MASK &&& (1 <<< irq.toNat) ≠ 0) := by
            rw [and_shift_ne_zero_iff_testBit, hmf]
            simp
          simp only [trigger, if_neg hval, hc]
          rw [if_neg hno]
          exact ⟨rfl, rfl⟩
  · intro hout
    simp [trigger, if_pos hout]



/-- Witness for `trigger_spec`: irq 4 is delivered (mask all-enabled),
irq 40 only counts as blocked and changes nothing. -/
theorem trigger_spec_witness :
    (trigger sIrq 4).intc.INT_STATUS.testBit 4 = true
  ∧ (trigger sIrq 4).cpu = some (exception mIrq 4)
  ∧ (trigger sIrq 40).intc.statBlocked = sIrq.intc.statBlocked + 1
  ∧ (trigger sIrq 40).intc.INT_STATUS = sIrq.intc.INT_STATUS := by
  obtain ⟨a, b, c⟩ := (trigger_spec sIrq 4).1 (by decide) (by decide)
  obtain ⟨d, e, f, g, h⟩ := (trigger_spec sIrq 40).2 (by decide)
  exact ⟨a, (b mIrq rfl (by decide)).1, h, e⟩

/-- Claim C10: with an enabled irq and a connected CPU, `trigger`
invokes the CPU exception entry unconditionally — the CPU state `c` is
arbitrary, so delivery is not gated by bit 0 of cr[0], by `halted`, or
by the initialization flag — and the entry immediately overwrites the
saved state: cr[1] receives the packed flags, cr[5] the current pc, and
bit 0 of cr[0] is cleared. -/
theorem trigger_not_gated {σ : Type} (s : IntcSys σ) (c : Machine σ) (irq : Int)
    (h0 : 0 ≤ irq) (h31 : irq ≤ 31) (hc : s.cpu = some c)
    (hm : s.intc.INT_MASK.testBit irq.toNat = true) :
    (trigger s irq).cpu = some (exception c irq.toNat)
  ∧ (exception c irq.toNat).cr 5 = c.pc
  ∧ (exception c irq.toNat).cr 1 =
      ((c.N &&& 1) <<< 31) ||| ((c.Z &&& 1) <<< 30) ||| ((c.C &&& 1) <<< 29) |||
      ((c.V &&& 1) <<< 28) ||| (c.T &&& 1)
  ∧ (exception c irq.toNat).cr 0 = c.cr 0 &&& 0xFFFFFFFE := by
  have hval : ¬ (irq < 0 ∨ 31 < irq) := by omega
  refine ⟨?_, ?_, ?_, ?_⟩
  · simp only [trigger, if_neg hval, hc]
    rw [if_pos ((and_shift_ne_zero_iff_testBit _ _).mpr hm)]
  · simp [exception, packSR0, Function.update]
  · simp [exception, packSR0, Function.update]
  · simp [exception, packSR0, Function.update]



/-- Witness for `trigger_not_gated`: irq 4 is delivered to a halted,
uninitialized CPU whose cr[0] bit 0 is already 0. -/
theorem trigger_not_gated_witness :
    (trigger sGate 4).cpu = some (exception mGate 4)
  ∧ (exception mGate 4).cr 5 = mGate.pc := by
  obtain ⟨a, b, _, _⟩ := trigger_not_gated sGate mGate 4 (by decide) (by decide) rfl (by decide)
  exact ⟨a, b⟩

end HS
